import Mathlib

/-!
Shallow embedding of `src/lib/engine.js` (Kalabox engine module): a
readiness-gated dispatcher over a pluggable container-engine backend.

The JS module keeps four module-level mutable variables
(`isProviderInstalled`, `isProviderUp`, `engineHasBeenInit`, `engine`);
we model them as an explicit `EngineState` record threaded through every
operation.  Each callback-style function becomes a pure function returning
the updated state, the list of external calls it performed (the trace of
provider queries and backend invocations, in order), and the value passed
to its completion callback.  A dereference of the `null` engine handle
(`engine.init(config)` with `engine === null`) is a synchronous crash,
not a callback result; we model it with `Outcome.crash`.

The provider and backend are opaque capabilities: we model each as a
record of behaviours giving the `(err, value)` pair each query passes to
its callback.  Opaque payloads (configuration, container data, options)
are modelled as `Nat`; errors as a wrapper over the message string, so
that `makeProviderError` can build the exact message the source builds.
-/

namespace KboxEngine

/-- A JS `Error` value; `Err.mk s` carries the message string.  Opaque
errors coming from the provider or backend are arbitrary values of this
type. -/
inductive Err where
  | mk (msg : String)
deriving DecidableEq, Repr

/-- Opaque engine configuration produced by `provider.engineConfig`. -/
abbrev Config := Nat

/-- Image descriptor for `build`: the source only inspects the `build`
marker field (`image.build` truthy → backend `build`, else backend
`pull`); the rest is opaque payload. -/
structure Image where
  build : Bool
  payload : Nat
deriving DecidableEq, Repr

/-- Value a data-operation callback receives: `(err, data)` as JS
arguments.  A gate failure delivers `(some e, none)` (the source calls
`callback(err)` with one argument); a backend invocation delivers
whatever pair the backend produced. -/
abbrev Res := Option Err × Option Nat

/-- Trace events: the external calls the module makes, in order.
`p…` events are provider-capability queries, `e…` events are calls on
the backend engine handle. -/
inductive Ev where
  | pIsInstalled
  | pIsUp
  | pEngineConfig
  | pUp
  | pDown
  | eInit (c : Config)
  | eUp
  | eDown
  | eList (appName : Option String)
  | eGet (cid : String)
  | eInspect (h : Nat)
  | eCreate (opts : Nat)
  | eStart (cid : String) (opts : Option Nat)
  | eStop (cid : String)
  | eRemove (cid : String)
  | eBuild (img : Image)
  | ePull (img : Image)
deriving DecidableEq, Repr

/-- Behaviour of the provider capability (`./engine/provider.js`): for
each async query, the `(err, value)` pair it passes to its callback;
`upResult`/`downResult` are the `err` argument `provider.up` /
`provider.down` pass to their callbacks. -/
structure Provider where
  getName : String
  isInstalled : Option Err × Bool
  isUp : Option Err × Bool
  engineConfig : Option Err × Config
  upResult : Option Err
  downResult : Option Err

/-- Behaviour of a backend engine implementation
(`./engine/<name>.js`): the result each container operation passes to
its callback, and the handle `get` returns. -/
structure Backend where
  listB : Option String → Res
  getB : String → Nat
  inspectB : Nat → Res
  createB : Nat → Res
  startB : String → Option Nat → Res
  stopB : String → Res
  removeB : String → Res
  buildB : Image → Res
  pullB : Image → Res

/-- The module-level mutable state of `engine.js`:
`isProviderInstalled`, `isProviderUp`, `engineHasBeenInit` start
`false`; `engine` starts `null` (here `none`) and is set by
`exports.init`. -/
structure EngineState where
  isProviderInstalled : Bool
  isProviderUp : Bool
  engineHasBeenInit : Bool
  engine : Option Backend

/-- The state at module load: all three facts false, no engine handle. -/
def initialState : EngineState :=
  { isProviderInstalled := false
    isProviderUp := false
    engineHasBeenInit := false
    engine := none }

/-- Outcome of an operation: `ok r` means the completion callback was
invoked with `r`; `crash` means a synchronous null-dereference
(`TypeError`) occurred before any callback. -/
inductive Outcome (α : Type) where
  | ok (r : α)
  | crash
deriving DecidableEq, Repr

/-- `makeProviderError`: builds
`new Error(['Provider "' + provider.getName() + '"', msg].join(' '))`. -/
def makeProviderError (p : Provider) (msg : String) : Err :=
  Err.mk (String.intercalate " " ["Provider \"" ++ p.getName ++ "\"", msg])

/-- `verifyProviderInstalled(callback)`: succeed from cache if
`isProviderInstalled`; otherwise query `provider.isInstalled`, propagate
a query error unmodified, fail with `makeProviderError('is NOT
installed!')` on a negative answer, else cache the fact and succeed. -/
def verifyProviderInstalled (p : Provider) (s : EngineState) :
    EngineState × List Ev × Option Err :=
  if s.isProviderInstalled then
    (s, [], none)
  else
    match p.isInstalled with
    | (some err, _) => (s, [Ev.pIsInstalled], some err)
    | (none, isInst) =>
      if !isInst then
        (s, [Ev.pIsInstalled], some (makeProviderError p "is NOT installed!"))
      else
        ({ s with isProviderInstalled := true }, [Ev.pIsInstalled], none)

/-- `verifyProviderUp(callback)`: same pattern over `provider.isUp` and
the `isProviderUp` cache, failing with `'is NOT up!'`. -/
def verifyProviderUp (p : Provider) (s : EngineState) :
    EngineState × List Ev × Option Err :=
  if s.isProviderUp then
    (s, [], none)
  else
    match p.isUp with
    | (some err, _) => (s, [Ev.pIsUp], some err)
    | (none, isUp) =>
      if !isUp then
        (s, [Ev.pIsUp], some (makeProviderError p "is NOT up!"))
      else
        ({ s with isProviderUp := true }, [Ev.pIsUp], none)

/-- `verifyProviderIsReady(callback)`: `verifyProviderInstalled`, then
`verifyProviderUp`, then (unless `engineHasBeenInit`)
`provider.engineConfig` followed by `engine.init(config)`; the
`engine.init` call dereferences the module's `engine` handle and crashes
when it is still `null`. -/
def verifyProviderIsReady (p : Provider) (s : EngineState) :
    EngineState × List Ev × Outcome (Option Err) :=
  match verifyProviderInstalled p s with
  | (s1, t1, some err) => (s1, t1, Outcome.ok (some err))
  | (s1, t1, none) =>
    match verifyProviderUp p s1 with
    | (s2, t2, some err) => (s2, t1 ++ t2, Outcome.ok (some err))
    | (s2, t2, none) =>
      if !s2.engineHasBeenInit then
        match p.engineConfig with
        | (some err, _) =>
          (s2, t1 ++ t2 ++ [Ev.pEngineConfig], Outcome.ok (some err))
        | (none, config) =>
          match s2.engine with
          | none => (s2, t1 ++ t2 ++ [Ev.pEngineConfig], Outcome.crash)
          | some _ =>
            ({ s2 with engineHasBeenInit := true },
             t1 ++ t2 ++ [Ev.pEngineConfig, Ev.eInit config],
             Outcome.ok none)
      else
        (s2, t1 ++ t2, Outcome.ok none)

/-- `exports.isUp(callback)`: passes the callback straight to
`provider.isUp` — no cache read or write. -/
def isUpOp (p : Provider) (s : EngineState) :
    EngineState × List Ev × (Option Err × Bool) :=
  (s, [Ev.pIsUp], p.isUp)

/-- `exports.init(globalConfig)`: if the `engine` handle is still null,
resolve the backend module named by the config and store it; otherwise
do nothing (first call wins).  We model the resolved module as the
argument `b`. -/
def init (b : Backend) (s : EngineState) : EngineState :=
  if s.engine.isSome then s else { s with engine := some b }

/-- `exports.up(attempts, callback)`: `verifyProviderInstalled`, then —
on success — `provider.up(callback)`.  The `attempts` argument is
accepted but never read (the `provider.up(attempts, callback)` call is
commented out in the source). -/
def up (p : Provider) (attempts : Nat) (s : EngineState) :
    EngineState × List Ev × Option Err :=
  match verifyProviderInstalled p s with
  | (s1, t1, some err) => (s1, t1, some err)
  | (s1, t1, none) => (s1, t1 ++ [Ev.pUp], p.upResult)

/-- `exports.down(attempts, callback)`: `verifyProviderInstalled`, then
— on success — `provider.down(callback)`; `attempts` is never read. -/
def down (p : Provider) (attempts : Nat) (s : EngineState) :
    EngineState × List Ev × Option Err :=
  match verifyProviderInstalled p s with
  | (s1, t1, some err) => (s1, t1, some err)
  | (s1, t1, none) => (s1, t1 ++ [Ev.pDown], p.downResult)

/-- `exports.list(appName, callback)`: full readiness gate, then
`engine.list(appName, callback)`. -/
def list (p : Provider) (appName : Option String) (s : EngineState) :
    EngineState × List Ev × Outcome Res :=
  match verifyProviderIsReady p s with
  | (s1, t1, Outcome.crash) => (s1, t1, Outcome.crash)
  | (s1, t1, Outcome.ok (some err)) => (s1, t1, Outcome.ok (some err, none))
  | (s1, t1, Outcome.ok none) =>
    match s1.engine with
    | none => (s1, t1, Outcome.crash)
    | some e => (s1, t1 ++ [Ev.eList appName], Outcome.ok (e.listB appName))

/-- `exports.inspect(cid, callback)`: full readiness gate, then
`engine.get(cid)` followed by `engine.inspect(container, callback)`. -/
def inspect (p : Provider) (cid : String) (s : EngineState) :
    EngineState × List Ev × Outcome Res :=
  match verifyProviderIsReady p s with
  | (s1, t1, Outcome.crash) => (s1, t1, Outcome.crash)
  | (s1, t1, Outcome.ok (some err)) => (s1, t1, Outcome.ok (some err, none))
  | (s1, t1, Outcome.ok none) =>
    match s1.engine with
    | none => (s1, t1, Outcome.crash)
    | some e =>
      (s1, t1 ++ [Ev.eGet cid, Ev.eInspect (e.getB cid)],
       Outcome.ok (e.inspectB (e.getB cid)))

/-- `exports.create(createOptions, callback)`: full readiness gate, then
`engine.create(createOptions, callback)`. -/
def create (p : Provider) (createOptions : Nat) (s : EngineState) :
    EngineState × List Ev × Outcome Res :=
  match verifyProviderIsReady p s with
  | (s1, t1, Outcome.crash) => (s1, t1, Outcome.crash)
  | (s1, t1, Outcome.ok (some err)) => (s1, t1, Outcome.ok (some err, none))
  | (s1, t1, Outcome.ok none) =>
    match s1.engine with
    | none => (s1, t1, Outcome.crash)
    | some e =>
      (s1, t1 ++ [Ev.eCreate createOptions],
       Outcome.ok (e.createB createOptions))

/-- `exports.start(cid, startOptions, callback)` after its
arity-normalisation prologue (a two-argument call shifts the callback
and passes `null` options, modelled by `startOptions = none`): full
readiness gate, then `engine.start(cid, startOptions, callback)`. -/
def start (p : Provider) (cid : String) (startOptions : Option Nat)
    (s : EngineState) : EngineState × List Ev × Outcome Res :=
  match verifyProviderIsReady p s with
  | (s1, t1, Outcome.crash) => (s1, t1, Outcome.crash)
  | (s1, t1, Outcome.ok (some err)) => (s1, t1, Outcome.ok (some err, none))
  | (s1, t1, Outcome.ok none) =>
    match s1.engine with
    | none => (s1, t1, Outcome.crash)
    | some e =>
      (s1, t1 ++ [Ev.eStart cid startOptions],
       Outcome.ok (e.startB cid startOptions))

/-- `exports.stop(cid, callback)`: full readiness gate, then
`engine.stop(cid, callback)`. -/
def stop (p : Provider) (cid : String) (s : EngineState) :
    EngineState × List Ev × Outcome Res :=
  match verifyProviderIsReady p s with
  | (s1, t1, Outcome.crash) => (s1, t1, Outcome.crash)
  | (s1, t1, Outcome.ok (some err)) => (s1, t1, Outcome.ok (some err, none))
  | (s1, t1, Outcome.ok none) =>
    match s1.engine with
    | none => (s1, t1, Outcome.crash)
    | some e => (s1, t1 ++ [Ev.eStop cid], Outcome.ok (e.stopB cid))

/-- `exports.remove(cid, callback)`: full readiness gate, then
`engine.remove(cid, callback)`. -/
def remove (p : Provider) (cid : String) (s : EngineState) :
    EngineState × List Ev × Outcome Res :=
  match verifyProviderIsReady p s with
  | (s1, t1, Outcome.crash) => (s1, t1, Outcome.crash)
  | (s1, t1, Outcome.ok (some err)) => (s1, t1, Outcome.ok (some err, none))
  | (s1, t1, Outcome.ok none) =>
    match s1.engine with
    | none => (s1, t1, Outcome.crash)
    | some e => (s1, t1 ++ [Ev.eRemove cid], Outcome.ok (e.removeB cid))

/-- `exports.build(image, callback)`: full readiness gate, then
`engine[image.build ? 'build' : 'pull'](image, callback)`. -/
def build (p : Provider) (image : Image) (s : EngineState) :
    EngineState × List Ev × Outcome Res :=
  match verifyProviderIsReady p s with
  | (s1, t1, Outcome.crash) => (s1, t1, Outcome.crash)
  | (s1, t1, Outcome.ok (some err)) => (s1, t1, Outcome.ok (some err, none))
  | (s1, t1, Outcome.ok none) =>
    match s1.engine with
    | none => (s1, t1, Outcome.crash)
    | some e =>
      if image.build then
        (s1, t1 ++ [Ev.eBuild image], Outcome.ok (e.buildB image))
      else
        (s1, t1 ++ [Ev.ePull image], Outcome.ok (e.pullB image))

/-- A public operation of the module, with its arguments.  `opInit b`
is `exports.init` with a global config whose `engine` name resolves to
the backend module `b`. -/
inductive Op where
  | opInit (b : Backend)
  | opIsUp
  | opUp (attempts : Nat)
  | opDown (attempts : Nat)
  | opList (appName : Option String)
  | opInspect (cid : String)
  | opCreate (createOptions : Nat)
  | opStart (cid : String) (startOptions : Option Nat)
  | opStop (cid : String)
  | opRemove (cid : String)
  | opBuild (image : Image)

/-- State transition of one public operation (the module state after the
call completes, callback result and trace discarded; on a crash the
mutations made before the crash persist). -/
def step (p : Provider) (s : EngineState) : Op → EngineState
  | Op.opInit b => init b s
  | Op.opIsUp => (isUpOp p s).1
  | Op.opUp a => (up p a s).1
  | Op.opDown a => (down p a s).1
  | Op.opList a => (list p a s).1
  | Op.opInspect c => (inspect p c s).1
  | Op.opCreate o => (create p o s).1
  | Op.opStart c o => (start p c o s).1
  | Op.opStop c => (stop p c s).1
  | Op.opRemove c => (remove p c s).1
  | Op.opBuild i => (build p i s).1

/-- Run a sequence of public operations, each against its own provider
behaviour (the provider may answer differently on different calls). -/
def runOps (l : List (Provider × Op)) (s : EngineState) : EngineState :=
  match l with
  | [] => s
  | (p, o) :: rest => runOps rest (step p s o)

/-- The readiness-state invariant: `up` implies `installed`, and
`initialized` implies `up`. -/
def Inv (s : EngineState) : Prop :=
  (s.isProviderUp = true → s.isProviderInstalled = true) ∧
  (s.engineHasBeenInit = true → s.isProviderUp = true)

/-- Monotonicity of the three readiness facts between two states: a
fact that is true in `s` is still true in `s'`. -/
def Mono (s s' : EngineState) : Prop :=
  (s.isProviderInstalled = true → s'.isProviderInstalled = true) ∧
  (s.isProviderUp = true → s'.isProviderUp = true) ∧
  (s.engineHasBeenInit = true → s'.engineHasBeenInit = true)

/-- `verifyProviderInstalled` iterated `n` times, accumulating the
traces and the callback results of the successive calls. -/
def verifyInstalledTimes (p : Provider) (s : EngineState) :
    Nat → EngineState × List Ev × List (Option Err)
  | 0 => (s, [], [])
  | Nat.succ n =>
    match verifyProviderInstalled p s with
    | (s1, t1, r1) =>
      match verifyInstalledTimes p s1 n with
      | (s2, t2, r2) => (s2, t1 ++ t2, r1 :: r2)

/-- A provider behaviour reporting installed, up, and a fixed
configuration, with every query succeeding. -/
def goodProvider : Provider :=
  { getName := "virtualbox"
    isInstalled := (none, true)
    isUp := (none, true)
    engineConfig := (none, 7)
    upResult := none
    downResult := none }

/-- A provider behaviour whose `isInstalled` query succeeds and reports
not installed. -/
def notInstalledProvider : Provider :=
  { goodProvider with isInstalled := (none, false) }

/-- A provider whose `isInstalled` query itself errors. -/
def errInstalledProvider : Provider :=
  { goodProvider with isInstalled := (some (Err.mk "boom"), false) }

/-- A provider whose `isUp` query itself errors. -/
def errUpProvider : Provider :=
  { goodProvider with isUp := (some (Err.mk "net down"), false) }

/-- A provider whose `engineConfig` query itself errors. -/
def errConfigProvider : Provider :=
  { goodProvider with engineConfig := (some (Err.mk "cfg fail"), 0) }

/-- A concrete backend behaviour, used to instantiate theorems. -/
def constBackend : Backend :=
  { listB := fun _ => (none, some 1)
    getB := fun _ => 5
    inspectB := fun h => (none, some h)
    createB := fun o => (none, some o)
    startB := fun _ _ => (none, some 2)
    stopB := fun _ => (none, some 3)
    removeB := fun _ => (none, some 4)
    buildB := fun _ => (none, some 6)
    pullB := fun _ => (none, some 8) }

/-- The initial state after an `exports.init` call resolved
`constBackend`. -/
def readyState : EngineState := init constBackend initialState

/-! ## General lemmas about the readiness checks -/

/-- The error `makeProviderError` builds carries the message
`Provider "<name>" <msg>`. -/
theorem makeProviderError_msg (p : Provider) (m : String) :
    makeProviderError p m = Err.mk ("Provider \"" ++ p.getName ++ "\" " ++ m) := by
  show Err.mk (("Provider \"" ++ p.getName ++ "\"") ++ " " ++ m) = _
  simp [String.append_assoc]

/-- `verifyProviderInstalled` touches no module variable except the
`isProviderInstalled` fact. -/
theorem verifyProviderInstalled_fields (p : Provider) (s : EngineState) :
    (verifyProviderInstalled p s).1.isProviderUp = s.isProviderUp ∧
    (verifyProviderInstalled p s).1.engineHasBeenInit = s.engineHasBeenInit ∧
    (verifyProviderInstalled p s).1.engine = s.engine := by
  unfold verifyProviderInstalled
  split
  · exact ⟨rfl, rfl, rfl⟩
  · split
    · exact ⟨rfl, rfl, rfl⟩
    · split <;> exact ⟨rfl, rfl, rfl⟩

/-- `verifyProviderUp` touches no module variable except the
`isProviderUp` fact. -/
theorem verifyProviderUp_fields (p : Provider) (s : EngineState) :
    (verifyProviderUp p s).1.isProviderInstalled = s.isProviderInstalled ∧
    (verifyProviderUp p s).1.engineHasBeenInit = s.engineHasBeenInit ∧
    (verifyProviderUp p s).1.engine = s.engine := by
  unfold verifyProviderUp
  split
  · exact ⟨rfl, rfl, rfl⟩
  · split
    · exact ⟨rfl, rfl, rfl⟩
    · split <;> exact ⟨rfl, rfl, rfl⟩

/-- The trace of `verifyProviderInstalled` is empty (cache hit) or the
single provider `isInstalled` query. -/
theorem verifyProviderInstalled_trace (p : Provider) (s : EngineState) :
    (verifyProviderInstalled p s).2.1 = [] ∨
    (verifyProviderInstalled p s).2.1 = [Ev.pIsInstalled] := by
  unfold verifyProviderInstalled
  split
  · exact Or.inl rfl
  · split
    · exact Or.inr rfl
    · split <;> exact Or.inr rfl

/-- The trace of `verifyProviderUp` is empty (cache hit) or the single
provider `isUp` query. -/
theorem verifyProviderUp_trace (p : Provider) (s : EngineState) :
    (verifyProviderUp p s).2.1 = [] ∨
    (verifyProviderUp p s).2.1 = [Ev.pIsUp] := by
  unfold verifyProviderUp
  split
  · exact Or.inl rfl
  · split
    · exact Or.inr rfl
    · split <;> exact Or.inr rfl

/-- The readiness gate never changes the backend handle. -/
theorem verifyProviderIsReady_engine (p : Provider) (s : EngineState) :
    (verifyProviderIsReady p s).1.engine = s.engine := by
  have h1 := (verifyProviderInstalled_fields p s).2.2
  unfold verifyProviderIsReady
  split
  next s1 t1 err heq =>
    rw [heq] at h1; exact h1
  next s1 t1 heq =>
    rw [heq] at h1
    have h2 := (verifyProviderUp_fields p s1).2.2
    split
    next s2 t2 err heq2 => rw [heq2] at h2; exact h2.trans h1
    next s2 t2 heq2 =>
      rw [heq2] at h2
      split
      · split
        next err cc heq3 => exact h2.trans h1
        next cc heq3 =>
          split
          next hse => exact h2.trans h1
          next b hse => simpa using h2.trans h1
      · exact h2.trans h1

/-- When its install gate succeeds, `up` is the gate's state, the
gate's trace followed by the provider `up` call, and the provider's
`up` callback result. -/
theorem up_gate_ok (p : Provider) (a : Nat) (s : EngineState)
    (h : (verifyProviderInstalled p s).2.2 = none) :
    up p a s = ((verifyProviderInstalled p s).1,
                (verifyProviderInstalled p s).2.1 ++ [Ev.pUp], p.upResult) := by
  unfold up
  split
  next s1 t1 err heq => rw [heq] at h; simp at h
  next s1 t1 heq => rw [heq]

/-- When its install gate fails, `up` delivers the gate error and makes
no further call. -/
theorem up_gate_err (p : Provider) (a : Nat) (s : EngineState) (e : Err)
    (h : (verifyProviderInstalled p s).2.2 = some e) :
    up p a s = ((verifyProviderInstalled p s).1,
                (verifyProviderInstalled p s).2.1, some e) := by
  unfold up
  split
  next s1 t1 err heq =>
    rw [heq] at h; rw [heq]
    simp at h; rw [h]
  next s1 t1 heq => rw [heq] at h; simp at h

/-- When its install gate succeeds, `down` is the gate's state, the
gate's trace followed by the provider `down` call, and the provider's
`down` callback result. -/
theorem down_gate_ok (p : Provider) (a : Nat) (s : EngineState)
    (h : (verifyProviderInstalled p s).2.2 = none) :
    down p a s = ((verifyProviderInstalled p s).1,
                  (verifyProviderInstalled p s).2.1 ++ [Ev.pDown],
                  p.downResult) := by
  unfold down
  split
  next s1 t1 err heq => rw [heq] at h; simp at h
  next s1 t1 heq => rw [heq]

/-- When its install gate fails, `down` delivers the gate error and
makes no further call. -/
theorem down_gate_err (p : Provider) (a : Nat) (s : EngineState) (e : Err)
    (h : (verifyProviderInstalled p s).2.2 = some e) :
    down p a s = ((verifyProviderInstalled p s).1,
                  (verifyProviderInstalled p s).2.1, some e) := by
  unfold down
  split
  next s1 t1 err heq =>
    rw [heq] at h; rw [heq]
    simp at h; rw [h]
  next s1 t1 heq => rw [heq] at h; simp at h

/-- Every event in a `verifyProviderInstalled` trace is the provider
`isInstalled` query. -/
theorem verifyProviderInstalled_trace_events (p : Provider)
    (s : EngineState) (e : Ev)
    (h : e ∈ (verifyProviderInstalled p s).2.1) : e = Ev.pIsInstalled := by
  rcases verifyProviderInstalled_trace p s with ht | ht <;> rw [ht] at h <;>
    simp_all

/-- Every event in a `verifyProviderUp` trace is the provider `isUp`
query. -/
theorem verifyProviderUp_trace_events (p : Provider) (s : EngineState)
    (e : Ev) (h : e ∈ (verifyProviderUp p s).2.1) : e = Ev.pIsUp := by
  rcases verifyProviderUp_trace p s with ht | ht <;> rw [ht] at h <;>
    simp_all

/-- A cached installed fact makes `verifyProviderInstalled` a no-op
success: no state change, no provider query. -/
theorem verifyProviderInstalled_cached (p : Provider) (s : EngineState)
    (h : s.isProviderInstalled = true) :
    verifyProviderInstalled p s = (s, [], none) := by
  unfold verifyProviderInstalled
  rw [h]
  rfl

/-- A cached up fact makes `verifyProviderUp` a no-op success. -/
theorem verifyProviderUp_cached (p : Provider) (s : EngineState)
    (h : s.isProviderUp = true) :
    verifyProviderUp p s = (s, [], none) := by
  unfold verifyProviderUp
  rw [h]
  rfl

/-- First uncached `verifyProviderInstalled` against a provider
reporting installed: one query, fact cached, success. -/
theorem verifyProviderInstalled_first (p : Provider) (s : EngineState)
    (h1 : s.isProviderInstalled = false) (h2 : p.isInstalled = (none, true)) :
    verifyProviderInstalled p s =
      ({ s with isProviderInstalled := true }, [Ev.pIsInstalled], none) := by
  unfold verifyProviderInstalled
  rw [h1, h2]
  rfl

/-- Iterating `verifyProviderInstalled` from a state with the fact
cached does nothing: empty trace, all calls succeed. -/
theorem verifyInstalledTimes_cached (p : Provider) (n : Nat) :
    ∀ s : EngineState, s.isProviderInstalled = true →
      verifyInstalledTimes p s n = (s, [], List.replicate n none) := by
  induction n with
  | zero => intro s h; rfl
  | succ k ih =>
    intro s h
    unfold verifyInstalledTimes
    simp only [verifyProviderInstalled_cached p s h, ih s h]
    rfl

/-- Unfolding of one iteration of `verifyInstalledTimes`. -/
theorem verifyInstalledTimes_succ (p : Provider) (s : EngineState) (k : Nat) :
    verifyInstalledTimes p s (k + 1) =
      ((verifyInstalledTimes p (verifyProviderInstalled p s).1 k).1,
       (verifyProviderInstalled p s).2.1 ++
         (verifyInstalledTimes p (verifyProviderInstalled p s).1 k).2.1,
       (verifyProviderInstalled p s).2.2 ::
         (verifyInstalledTimes p (verifyProviderInstalled p s).1 k).2.2) := by
  rfl

/-- When the readiness gate fails, `list` delivers exactly the gate
error and attempts no backend call: its trace is the gate's trace. -/
theorem list_gate_err (p : Provider) (a : Option String) (s : EngineState) (e : Err)
    (h : (verifyProviderIsReady p s).2.2 = Outcome.ok (some e)) :
    list p a s = ((verifyProviderIsReady p s).1,
      (verifyProviderIsReady p s).2.1, Outcome.ok (some e, none)) := by
  unfold list
  split
  next s1 t1 heq => rw [heq] at h; simp at h
  next s1 t1 err heq =>
    rw [heq] at h
    simp at h
    subst h
    rw [heq]
  next s1 t1 heq => rw [heq] at h; simp at h

/-- When the readiness gate succeeds, `list` delegates to the backend
and delivers the backend's result unmodified. -/
theorem list_gate_ok (p : Provider) (a : Option String) (s : EngineState)
    (b : Backend) (h : (verifyProviderIsReady p s).2.2 = Outcome.ok none)
    (hE : s.engine = some b) :
    list p a s = ((verifyProviderIsReady p s).1,
      (verifyProviderIsReady p s).2.1 ++ [Ev.eList a],
      Outcome.ok (b.listB a)) := by
  unfold list
  split
  next s1 t1 heq => rw [heq] at h; simp at h
  next s1 t1 err heq => rw [heq] at h; simp at h
  next s1 t1 heq =>
    have hs1e : s1.engine = some b := by
      have hpres := verifyProviderIsReady_engine p s
      rw [heq] at hpres
      exact hpres.trans hE
    rw [hs1e, heq]

/-- When the readiness gate fails, `inspect` delivers exactly the gate
error and attempts no backend call: its trace is the gate's trace. -/
theorem inspect_gate_err (p : Provider) (cid : String) (s : EngineState) (e : Err)
    (h : (verifyProviderIsReady p s).2.2 = Outcome.ok (some e)) :
    inspect p cid s = ((verifyProviderIsReady p s).1,
      (verifyProviderIsReady p s).2.1, Outcome.ok (some e, none)) := by
  unfold inspect
  split
  next s1 t1 heq => rw [heq] at h; simp at h
  next s1 t1 err heq =>
    rw [heq] at h
    simp at h
    subst h
    rw [heq]
  next s1 t1 heq => rw [heq] at h; simp at h

/-- When the readiness gate succeeds, `inspect` delegates to the backend
and delivers the backend's result unmodified. -/
theorem inspect_gate_ok (p : Provider) (cid : String) (s : EngineState)
    (b : Backend) (h : (verifyProviderIsReady p s).2.2 = Outcome.ok none)
    (hE : s.engine = some b) :
    inspect p cid s = ((verifyProviderIsReady p s).1,
      (verifyProviderIsReady p s).2.1 ++ [Ev.eGet cid, Ev.eInspect (b.getB cid)],
      Outcome.ok (b.inspectB (b.getB cid))) := by
  unfold inspect
  split
  next s1 t1 heq => rw [heq] at h; simp at h
  next s1 t1 err heq => rw [heq] at h; simp at h
  next s1 t1 heq =>
    have hs1e : s1.engine = some b := by
      have hpres := verifyProviderIsReady_engine p s
      rw [heq] at hpres
      exact hpres.trans hE
    rw [hs1e, heq]

/-- When the readiness gate fails, `create` delivers exactly the gate
error and attempts no backend call: its trace is the gate's trace. -/
theorem create_gate_err (p : Provider) (o : Nat) (s : EngineState) (e : Err)
    (h : (verifyProviderIsReady p s).2.2 = Outcome.ok (some e)) :
    create p o s = ((verifyProviderIsReady p s).1,
      (verifyProviderIsReady p s).2.1, Outcome.ok (some e, none)) := by
  unfold create
  split
  next s1 t1 heq => rw [heq] at h; simp at h
  next s1 t1 err heq =>
    rw [heq] at h
    simp at h
    subst h
    rw [heq]
  next s1 t1 heq => rw [heq] at h; simp at h

/-- When the readiness gate succeeds, `create` delegates to the backend
and delivers the backend's result unmodified. -/
theorem create_gate_ok (p : Provider) (o : Nat) (s : EngineState)
    (b : Backend) (h : (verifyProviderIsReady p s).2.2 = Outcome.ok none)
    (hE : s.engine = some b) :
    create p o s = ((verifyProviderIsReady p s).1,
      (verifyProviderIsReady p s).2.1 ++ [Ev.eCreate o],
      Outcome.ok (b.createB o)) := by
  unfold create
  split
  next s1 t1 heq => rw [heq] at h; simp at h
  next s1 t1 err heq => rw [heq] at h; simp at h
  next s1 t1 heq =>
    have hs1e : s1.engine = some b := by
      have hpres := verifyProviderIsReady_engine p s
      rw [heq] at hpres
      exact hpres.trans hE
    rw [hs1e, heq]

/-- When the readiness gate fails, `start` delivers exactly the gate
error and attempts no backend call: its trace is the gate's trace. -/
theorem start_gate_err (p : Provider) (cid : String) (so : Option Nat) (s : EngineState) (e : Err)
    (h : (verifyProviderIsReady p s).2.2 = Outcome.ok (some e)) :
    start p cid so s = ((verifyProviderIsReady p s).1,
      (verifyProviderIsReady p s).2.1, Outcome.ok (some e, none)) := by
  unfold start
  split
  next s1 t1 heq => rw [heq] at h; simp at h
  next s1 t1 err heq =>
    rw [heq] at h
    simp at h
    subst h
    rw [heq]
  next s1 t1 heq => rw [heq] at h; simp at h

/-- When the readiness gate succeeds, `start` delegates to the backend
and delivers the backend's result unmodified. -/
theorem start_gate_ok (p : Provider) (cid : String) (so : Option Nat) (s : EngineState)
    (b : Backend) (h : (verifyProviderIsReady p s).2.2 = Outcome.ok none)
    (hE : s.engine = some b) :
    start p cid so s = ((verifyProviderIsReady p s).1,
      (verifyProviderIsReady p s).2.1 ++ [Ev.eStart cid so],
      Outcome.ok (b.startB cid so)) := by
  unfold start
  split
  next s1 t1 heq => rw [heq] at h; simp at h
  next s1 t1 err heq => rw [heq] at h; simp at h
  next s1 t1 heq =>
    have hs1e : s1.engine = some b := by
      have hpres := verifyProviderIsReady_engine p s
      rw [heq] at hpres
      exact hpres.trans hE
    rw [hs1e, heq]

/-- When the readiness gate fails, `stop` delivers exactly the gate
error and attempts no backend call: its trace is the gate's trace. -/
theorem stop_gate_err (p : Provider) (cid : String) (s : EngineState) (e : Err)
    (h : (verifyProviderIsReady p s).2.2 = Outcome.ok (some e)) :
    stop p cid s = ((verifyProviderIsReady p s).1,
      (verifyProviderIsReady p s).2.1, Outcome.ok (some e, none)) := by
  unfold stop
  split
  next s1 t1 heq => rw [heq] at h; simp at h
  next s1 t1 err heq =>
    rw [heq] at h
    simp at h
    subst h
    rw [heq]
  next s1 t1 heq => rw [heq] at h; simp at h

/-- When the readiness gate succeeds, `stop` delegates to the backend
and delivers the backend's result unmodified. -/
theorem stop_gate_ok (p : Provider) (cid : String) (s : EngineState)
    (b : Backend) (h : (verifyProviderIsReady p s).2.2 = Outcome.ok none)
    (hE : s.engine = some b) :
    stop p cid s = ((verifyProviderIsReady p s).1,
      (verifyProviderIsReady p s).2.1 ++ [Ev.eStop cid],
      Outcome.ok (b.stopB cid)) := by
  unfold stop
  split
  next s1 t1 heq => rw [heq] at h; simp at h
  next s1 t1 err heq => rw [heq] at h; simp at h
  next s1 t1 heq =>
    have hs1e : s1.engine = some b := by
      have hpres := verifyProviderIsReady_engine p s
      rw [heq] at hpres
      exact hpres.trans hE
    rw [hs1e, heq]

/-- When the readiness gate fails, `remove` delivers exactly the gate
error and attempts no backend call: its trace is the gate's trace. -/
theorem remove_gate_err (p : Provider) (cid : String) (s : EngineState) (e : Err)
    (h : (verifyProviderIsReady p s).2.2 = Outcome.ok (some e)) :
    remove p cid s = ((verifyProviderIsReady p s).1,
      (verifyProviderIsReady p s).2.1, Outcome.ok (some e, none)) := by
  unfold remove
  split
  next s1 t1 heq => rw [heq] at h; simp at h
  next s1 t1 err heq =>
    rw [heq] at h
    simp at h
    subst h
    rw [heq]
  next s1 t1 heq => rw [heq] at h; simp at h

/-- When the readiness gate succeeds, `remove` delegates to the backend
and delivers the backend's result unmodified. -/
theorem remove_gate_ok (p : Provider) (cid : String) (s : EngineState)
    (b : Backend) (h : (verifyProviderIsReady p s).2.2 = Outcome.ok none)
    (hE : s.engine = some b) :
    remove p cid s = ((verifyProviderIsReady p s).1,
      (verifyProviderIsReady p s).2.1 ++ [Ev.eRemove cid],
      Outcome.ok (b.removeB cid)) := by
  unfold remove
  split
  next s1 t1 heq => rw [heq] at h; simp at h
  next s1 t1 err heq => rw [heq] at h; simp at h
  next s1 t1 heq =>
    have hs1e : s1.engine = some b := by
      have hpres := verifyProviderIsReady_engine p s
      rw [heq] at hpres
      exact hpres.trans hE
    rw [hs1e, heq]

/-- When the readiness gate fails, `build` delivers exactly the gate
error and attempts no backend call: its trace is the gate's trace. -/
theorem build_gate_err (p : Provider) (img : Image) (s : EngineState)
    (e : Err)
    (h : (verifyProviderIsReady p s).2.2 = Outcome.ok (some e)) :
    build p img s = ((verifyProviderIsReady p s).1,
      (verifyProviderIsReady p s).2.1, Outcome.ok (some e, none)) := by
  unfold build
  split
  next s1 t1 heq => rw [heq] at h; simp at h
  next s1 t1 err heq =>
    rw [heq] at h
    simp at h
    subst h
    rw [heq]
  next s1 t1 heq => rw [heq] at h; simp at h

/-- When the readiness gate succeeds, `build` delegates to the
backend's `build` operation if the image descriptor's `build` marker is
set, else to the backend's `pull`, delivering that operation's result
unmodified. -/
theorem build_gate_ok (p : Provider) (img : Image) (s : EngineState)
    (b : Backend) (h : (verifyProviderIsReady p s).2.2 = Outcome.ok none)
    (hE : s.engine = some b) :
    build p img s = ((verifyProviderIsReady p s).1,
      (verifyProviderIsReady p s).2.1 ++
        [if img.build then Ev.eBuild img else Ev.ePull img],
      Outcome.ok (if img.build then b.buildB img else b.pullB img)) := by
  unfold build
  split
  next s1 t1 heq => rw [heq] at h; simp at h
  next s1 t1 err heq => rw [heq] at h; simp at h
  next s1 t1 heq =>
    have hs1e : s1.engine = some b := by
      have hpres := verifyProviderIsReady_engine p s
      rw [heq] at hpres
      exact hpres.trans hE
    rw [hs1e, heq]
    cases himg : img.build <;> simp [himg]

/-- A successful `verifyProviderInstalled` either hit the cache (no
query, no state change) or performed the one query and cached the
fact. -/
theorem vpi_ok_cases (p : Provider) (s : EngineState)
    (h : (verifyProviderInstalled p s).2.2 = none) :
    verifyProviderInstalled p s = (s, [], none) ∨
    verifyProviderInstalled p s =
      ({ s with isProviderInstalled := true }, [Ev.pIsInstalled], none) := by
  unfold verifyProviderInstalled at h ⊢
  split at h
  next hcond => simp [hcond]
  next hcond =>
    split at h
    next e hpat => simp at h
    next isInst hpat =>
      split at h
      next hneg => simp at h
      next hneg =>
        simp [hcond, hpat, hneg]

/-- A successful `verifyProviderUp` either hit the cache or performed
the one query and cached the fact. -/
theorem vpu_ok_cases (p : Provider) (s : EngineState)
    (h : (verifyProviderUp p s).2.2 = none) :
    verifyProviderUp p s = (s, [], none) ∨
    verifyProviderUp p s =
      ({ s with isProviderUp := true }, [Ev.pIsUp], none) := by
  unfold verifyProviderUp at h ⊢
  split at h
  next hcond => simp [hcond]
  next hcond =>
    split at h
    next e hpat => simp at h
    next isUp hpat =>
      split at h
      next hneg => simp at h
      next hneg =>
        simp [hcond, hpat, hneg]

/-- When the readiness gate crashes, `list` crashes, with the gate's
state and trace. -/
theorem list_gate_crash (p : Provider) (a : Option String) (s : EngineState)
    (h : (verifyProviderIsReady p s).2.2 = Outcome.crash) :
    list p a s = ((verifyProviderIsReady p s).1,
      (verifyProviderIsReady p s).2.1, Outcome.crash) := by
  unfold list
  split
  next s1 t1 heq => rw [heq]
  next s1 t1 err heq => rw [heq] at h; simp at h
  next s1 t1 heq => rw [heq] at h; simp at h

/-- `list` leaves the module state exactly as the readiness gate
left it. -/
theorem list_fst (p : Provider) (a : Option String) (s : EngineState) :
    (list p a s).1 = (verifyProviderIsReady p s).1 := by
  unfold list
  split
  next s1 t1 heq => rw [heq]
  next s1 t1 err heq => rw [heq]
  next s1 t1 heq => split <;> rw [heq]

/-- When the readiness gate crashes, `inspect` crashes, with the gate's
state and trace. -/
theorem inspect_gate_crash (p : Provider) (cid : String) (s : EngineState)
    (h : (verifyProviderIsReady p s).2.2 = Outcome.crash) :
    inspect p cid s = ((verifyProviderIsReady p s).1,
      (verifyProviderIsReady p s).2.1, Outcome.crash) := by
  unfold inspect
  split
  next s1 t1 heq => rw [heq]
  next s1 t1 err heq => rw [heq] at h; simp at h
  next s1 t1 heq => rw [heq] at h; simp at h

/-- `inspect` leaves the module state exactly as the readiness gate
left it. -/
theorem inspect_fst (p : Provider) (cid : String) (s : EngineState) :
    (inspect p cid s).1 = (verifyProviderIsReady p s).1 := by
  unfold inspect
  split
  next s1 t1 heq => rw [heq]
  next s1 t1 err heq => rw [heq]
  next s1 t1 heq => split <;> rw [heq]

/-- When the readiness gate crashes, `create` crashes, with the gate's
state and trace. -/
theorem create_gate_crash (p : Provider) (o : Nat) (s : EngineState)
    (h : (verifyProviderIsReady p s).2.2 = Outcome.crash) :
    create p o s = ((verifyProviderIsReady p s).1,
      (verifyProviderIsReady p s).2.1, Outcome.crash) := by
  unfold create
  split
  next s1 t1 heq => rw [heq]
  next s1 t1 err heq => rw [heq] at h; simp at h
  next s1 t1 heq => rw [heq] at h; simp at h

/-- `create` leaves the module state exactly as the readiness gate
left it. -/
theorem create_fst (p : Provider) (o : Nat) (s : EngineState) :
    (create p o s).1 = (verifyProviderIsReady p s).1 := by
  unfold create
  split
  next s1 t1 heq => rw [heq]
  next s1 t1 err heq => rw [heq]
  next s1 t1 heq => split <;> rw [heq]

/-- When the readiness gate crashes, `start` crashes, with the gate's
state and trace. -/
theorem start_gate_crash (p : Provider) (cid : String) (so : Option Nat) (s : EngineState)
    (h : (verifyProviderIsReady p s).2.2 = Outcome.crash) :
    start p cid so s = ((verifyProviderIsReady p s).1,
      (verifyProviderIsReady p s).2.1, Outcome.crash) := by
  unfold start
  split
  next s1 t1 heq => rw [heq]
  next s1 t1 err heq => rw [heq] at h; simp at h
  next s1 t1 heq => rw [heq] at h; simp at h

/-- `start` leaves the module state exactly as the readiness gate
left it. -/
theorem start_fst (p : Provider) (cid : String) (so : Option Nat) (s : EngineState) :
    (start p cid so s).1 = (verifyProviderIsReady p s).1 := by
  unfold start
  split
  next s1 t1 heq => rw [heq]
  next s1 t1 err heq => rw [heq]
  next s1 t1 heq => split <;> rw [heq]

/-- When the readiness gate crashes, `stop` crashes, with the gate's
state and trace. -/
theorem stop_gate_crash (p : Provider) (cid : String) (s : EngineState)
    (h : (verifyProviderIsReady p s).2.2 = Outcome.crash) :
    stop p cid s = ((verifyProviderIsReady p s).1,
      (verifyProviderIsReady p s).2.1, Outcome.crash) := by
  unfold stop
  split
  next s1 t1 heq => rw [heq]
  next s1 t1 err heq => rw [heq] at h; simp at h
  next s1 t1 heq => rw [heq] at h; simp at h

/-- `stop` leaves the module state exactly as the readiness gate
left it. -/
theorem stop_fst (p : Provider) (cid : String) (s : EngineState) :
    (stop p cid s).1 = (verifyProviderIsReady p s).1 := by
  unfold stop
  split
  next s1 t1 heq => rw [heq]
  next s1 t1 err heq => rw [heq]
  next s1 t1 heq => split <;> rw [heq]

/-- When the readiness gate crashes, `remove` crashes, with the gate's
state and trace. -/
theorem remove_gate_crash (p : Provider) (cid : String) (s : EngineState)
    (h : (verifyProviderIsReady p s).2.2 = Outcome.crash) :
    remove p cid s = ((verifyProviderIsReady p s).1,
      (verifyProviderIsReady p s).2.1, Outcome.crash) := by
  unfold remove
  split
  next s1 t1 heq => rw [heq]
  next s1 t1 err heq => rw [heq] at h; simp at h
  next s1 t1 heq => rw [heq] at h; simp at h

/-- `remove` leaves the module state exactly as the readiness gate
left it. -/
theorem remove_fst (p : Provider) (cid : String) (s : EngineState) :
    (remove p cid s).1 = (verifyProviderIsReady p s).1 := by
  unfold remove
  split
  next s1 t1 heq => rw [heq]
  next s1 t1 err heq => rw [heq]
  next s1 t1 heq => split <;> rw [heq]

/-- When the readiness gate crashes, `build` crashes, with the gate's
state and trace. -/
theorem build_gate_crash (p : Provider) (img : Image) (s : EngineState)
    (h : (verifyProviderIsReady p s).2.2 = Outcome.crash) :
    build p img s = ((verifyProviderIsReady p s).1,
      (verifyProviderIsReady p s).2.1, Outcome.crash) := by
  unfold build
  split
  next s1 t1 heq => rw [heq]
  next s1 t1 err heq => rw [heq] at h; simp at h
  next s1 t1 heq => rw [heq] at h; simp at h

/-- `build` leaves the module state exactly as the readiness gate
left it. -/
theorem build_fst (p : Provider) (img : Image) (s : EngineState) :
    (build p img s).1 = (verifyProviderIsReady p s).1 := by
  unfold build
  split
  next s1 t1 heq => rw [heq]
  next s1 t1 err heq => rw [heq]
  next s1 t1 heq =>
    split
    next hse => rw [heq]
    next bb hse => split <;> rw [heq]

/-- With the backend handle set, the readiness gate never crashes. -/
theorem ready_no_crash (p : Provider) (s : EngineState) (b : Backend)
    (hE : s.engine = some b) :
    (verifyProviderIsReady p s).2.2 ≠ Outcome.crash := by
  unfold verifyProviderIsReady
  split
  next s1 t1 err heq => simp
  next s1 t1 heq =>
    have h1 : s1.engine = s.engine := by
      have := (verifyProviderInstalled_fields p s).2.2
      rw [heq] at this; exact this
    split
    next s2 t2 err heq2 => simp
    next s2 t2 heq2 =>
      have h2 : s2.engine = s.engine := by
        have := (verifyProviderUp_fields p s1).2.2
        rw [heq2] at this; exact this.trans h1
      split
      · split
        next err cc heq3 => simp
        next cc heq3 =>
          split
          next hse => rw [h2, hE] at hse; simp at hse
          next bb hse => simp
      · simp

/-- `verifyProviderInstalled` leaves the state unchanged or just sets
the installed fact. -/
theorem vpi_fst_cases (p : Provider) (s : EngineState) :
    (verifyProviderInstalled p s).1 = s ∨
    (verifyProviderInstalled p s).1 =
      { s with isProviderInstalled := true } := by
  unfold verifyProviderInstalled
  split
  · exact Or.inl rfl
  · split
    · exact Or.inl rfl
    · split
      · exact Or.inl rfl
      · exact Or.inr rfl

/-- `verifyProviderUp` leaves the state unchanged or just sets the up
fact. -/
theorem vpu_fst_cases (p : Provider) (s : EngineState) :
    (verifyProviderUp p s).1 = s ∨
    (verifyProviderUp p s).1 = { s with isProviderUp := true } := by
  unfold verifyProviderUp
  split
  · exact Or.inl rfl
  · split
    · exact Or.inl rfl
    · split
      · exact Or.inl rfl
      · exact Or.inr rfl

/-- After a successful `verifyProviderInstalled`, the installed fact
holds. -/
theorem vpi_ok_installed (p : Provider) (s : EngineState)
    (h : (verifyProviderInstalled p s).2.2 = none) :
    (verifyProviderInstalled p s).1.isProviderInstalled = true := by
  unfold verifyProviderInstalled at h ⊢
  split at h
  next hcond => simp [hcond]
  next hcond =>
    split at h
    next e hpat => simp at h
    next isInst hpat =>
      split at h
      next hneg => simp at h
      next hneg => simp [hcond, hpat, hneg]

/-- After a successful `verifyProviderUp`, the up fact holds. -/
theorem vpu_ok_up (p : Provider) (s : EngineState)
    (h : (verifyProviderUp p s).2.2 = none) :
    (verifyProviderUp p s).1.isProviderUp = true := by
  unfold verifyProviderUp at h ⊢
  split at h
  next hcond => simp [hcond]
  next hcond =>
    split at h
    next e hpat => simp at h
    next isUp hpat =>
      split at h
      next hneg => simp at h
      next hneg => simp [hcond, hpat, hneg]

/-- `up` leaves the state exactly as its install gate left it. -/
theorem up_fst (p : Provider) (a : Nat) (s : EngineState) :
    (up p a s).1 = (verifyProviderInstalled p s).1 := by
  unfold up
  split
  next s1 t1 err heq => rw [heq]
  next s1 t1 heq => rw [heq]

/-- `down` leaves the state exactly as its install gate left it. -/
theorem down_fst (p : Provider) (a : Nat) (s : EngineState) :
    (down p a s).1 = (verifyProviderInstalled p s).1 := by
  unfold down
  split
  next s1 t1 err heq => rw [heq]
  next s1 t1 heq => rw [heq]

/-- `Mono` is reflexive. -/
theorem Mono_refl (s : EngineState) : Mono s s := ⟨id, id, id⟩

/-- `Mono` is transitive. -/
theorem Mono_trans {s1 s2 s3 : EngineState} (a : Mono s1 s2)
    (b : Mono s2 s3) : Mono s1 s3 :=
  ⟨fun h => b.1 (a.1 h), fun h => b.2.1 (a.2.1 h),
   fun h => b.2.2 (a.2.2 h)⟩

/-- `verifyProviderInstalled` preserves the invariant and is monotone
on the readiness facts. -/
theorem vpi_invmono (p : Provider) (s : EngineState) (h : Inv s) :
    Inv ((verifyProviderInstalled p s).1) ∧
    Mono s ((verifyProviderInstalled p s).1) := by
  rcases vpi_fst_cases p s with hc | hc <;> rw [hc]
  · exact ⟨h, Mono_refl s⟩
  · exact ⟨⟨fun _ => rfl, fun hi => h.2 hi⟩, fun _ => rfl, id, id⟩

/-- `verifyProviderInstalled` is monotone on the readiness facts. -/
theorem vpi_mono (p : Provider) (s : EngineState) :
    Mono s ((verifyProviderInstalled p s).1) := by
  rcases vpi_fst_cases p s with hc | hc <;> rw [hc]
  · exact Mono_refl s
  · exact ⟨fun _ => rfl, id, id⟩

/-- On a state whose installed fact holds, `verifyProviderUp` preserves
the invariant and is monotone. -/
theorem vpu_invmono (p : Provider) (s : EngineState) (h : Inv s)
    (hI : s.isProviderInstalled = true) :
    Inv ((verifyProviderUp p s).1) ∧
    Mono s ((verifyProviderUp p s).1) := by
  rcases vpu_fst_cases p s with hc | hc <;> rw [hc]
  · exact ⟨h, Mono_refl s⟩
  · exact ⟨⟨fun _ => hI, fun _ => rfl⟩, id, fun _ => rfl, id⟩

/-- `verifyProviderUp` is monotone on the readiness facts. -/
theorem vpu_mono (p : Provider) (s : EngineState) :
    Mono s ((verifyProviderUp p s).1) := by
  rcases vpu_fst_cases p s with hc | hc <;> rw [hc]
  · exact Mono_refl s
  · exact ⟨id, fun _ => rfl, id⟩

/-- The full readiness gate preserves the invariant and is monotone. -/
theorem ready_invmono (p : Provider) (s : EngineState) (h : Inv s) :
    Inv ((verifyProviderIsReady p s).1) ∧
    Mono s ((verifyProviderIsReady p s).1) := by
  unfold verifyProviderIsReady
  split
  next s1 t1 err heq =>
    have hA := vpi_invmono p s h
    rw [heq] at hA
    exact hA
  next s1 t1 heq =>
    have hA := vpi_invmono p s h
    rw [heq] at hA
    have hI1 : s1.isProviderInstalled = true := by
      have hh := vpi_ok_installed p s (by rw [heq])
      rw [heq] at hh
      exact hh
    have hB := vpu_invmono p s1 hA.1 hI1
    split
    next s2 t2 err heq2 =>
      rw [heq2] at hB
      exact ⟨hB.1, Mono_trans hA.2 hB.2⟩
    next s2 t2 heq2 =>
      have hU2 : s2.isProviderUp = true := by
        have hh := vpu_ok_up p s1 (by rw [heq2])
        rw [heq2] at hh
        exact hh
      rw [heq2] at hB
      split
      · split
        next err cc heq3 => exact ⟨hB.1, Mono_trans hA.2 hB.2⟩
        next cc heq3 =>
          split
          next hse => exact ⟨hB.1, Mono_trans hA.2 hB.2⟩
          next bb hse =>
            refine ⟨⟨fun hu => hB.1.1 hu, fun _ => hU2⟩, ?_⟩
            exact Mono_trans hA.2 (Mono_trans hB.2 ⟨id, id, fun _ => rfl⟩)
      · exact ⟨hB.1, Mono_trans hA.2 hB.2⟩

/-- The full readiness gate is monotone on the readiness facts. -/
theorem ready_mono (p : Provider) (s : EngineState) :
    Mono s ((verifyProviderIsReady p s).1) := by
  unfold verifyProviderIsReady
  split
  next s1 t1 err heq =>
    have hA := vpi_mono p s
    rw [heq] at hA
    exact hA
  next s1 t1 heq =>
    have hA := vpi_mono p s
    rw [heq] at hA
    have hB := vpu_mono p s1
    split
    next s2 t2 err heq2 =>
      rw [heq2] at hB
      exact Mono_trans hA hB
    next s2 t2 heq2 =>
      rw [heq2] at hB
      split
      · split
        next err cc heq3 => exact Mono_trans hA hB
        next cc heq3 =>
          split
          next hse => exact Mono_trans hA hB
          next bb hse =>
            exact Mono_trans hA (Mono_trans hB ⟨id, id, fun _ => rfl⟩)
      · exact Mono_trans hA hB

/-- Every public operation is monotone on the readiness facts. -/
theorem step_mono (p : Provider) (s : EngineState) (o : Op) :
    Mono s (step p s o) := by
  cases o with
  | opInit b =>
    show Mono s (init b s)
    unfold init
    split
    · exact Mono_refl s
    · exact ⟨id, id, id⟩
  | opIsUp => exact Mono_refl s
  | opUp a =>
    show Mono s ((up p a s).1)
    rw [up_fst]
    exact vpi_mono p s
  | opDown a =>
    show Mono s ((down p a s).1)
    rw [down_fst]
    exact vpi_mono p s
  | opList a =>
    show Mono s ((list p a s).1)
    rw [list_fst]
    exact ready_mono p s
  | opInspect c =>
    show Mono s ((inspect p c s).1)
    rw [inspect_fst]
    exact ready_mono p s
  | opCreate o =>
    show Mono s ((create p o s).1)
    rw [create_fst]
    exact ready_mono p s
  | opStart c o =>
    show Mono s ((start p c o s).1)
    rw [start_fst]
    exact ready_mono p s
  | opStop c =>
    show Mono s ((stop p c s).1)
    rw [stop_fst]
    exact ready_mono p s
  | opRemove c =>
    show Mono s ((remove p c s).1)
    rw [remove_fst]
    exact ready_mono p s
  | opBuild i =>
    show Mono s ((build p i s).1)
    rw [build_fst]
    exact ready_mono p s

/-- Every public operation preserves the readiness invariant. -/
theorem step_inv (p : Provider) (s : EngineState) (o : Op)
    (h : Inv s) : Inv (step p s o) := by
  cases o with
  | opInit b =>
    show Inv (init b s)
    unfold init
    split
    · exact h
    · exact ⟨h.1, h.2⟩
  | opIsUp => exact h
  | opUp a =>
    show Inv ((up p a s).1)
    rw [up_fst]
    exact (vpi_invmono p s h).1
  | opDown a =>
    show Inv ((down p a s).1)
    rw [down_fst]
    exact (vpi_invmono p s h).1
  | opList a =>
    show Inv ((list p a s).1)
    rw [list_fst]
    exact (ready_invmono p s h).1
  | opInspect c =>
    show Inv ((inspect p c s).1)
    rw [inspect_fst]
    exact (ready_invmono p s h).1
  | opCreate o =>
    show Inv ((create p o s).1)
    rw [create_fst]
    exact (ready_invmono p s h).1
  | opStart c o =>
    show Inv ((start p c o s).1)
    rw [start_fst]
    exact (ready_invmono p s h).1
  | opStop c =>
    show Inv ((stop p c s).1)
    rw [stop_fst]
    exact (ready_invmono p s h).1
  | opRemove c =>
    show Inv ((remove p c s).1)
    rw [remove_fst]
    exact (ready_invmono p s h).1
  | opBuild i =>
    show Inv ((build p i s).1)
    rw [build_fst]
    exact (ready_invmono p s h).1

/-- The readiness invariant is inductive over operation sequences. -/
theorem runOps_inv (l : List (Provider × Op)) :
    ∀ s : EngineState, Inv s → Inv (runOps l s) := by
  induction l with
  | nil => exact fun s h => h
  | cons po rest ih =>
    intro s h
    rcases po with ⟨p, o⟩
    exact ih (step p s o) (step_inv p s o h)

/-- The initial state satisfies the readiness invariant. -/
theorem Inv_initialState : Inv initialState :=
  ⟨fun h => by simp [initialState] at h,
   fun h => by simp [initialState] at h⟩

/-! ## Claim theorems -/

/-- Claim C1, counterexample: the claim says that after
`verifyInstalled` succeeds `up` (resp. `down`) delegates to the backend
engine's `up` (resp. `down`).  With a provider that reports installed,
`up 1` and `down 1` from the initial state pass the gate yet never call
the backend engine: the source delegates to `provider.up` /
`provider.down`, not to the backend. -/
theorem up_down_backend_delegation_false :
    ¬ ((verifyProviderInstalled goodProvider initialState).2.2 = none →
       Ev.eUp ∈ (up goodProvider 1 initialState).2.1 ∧
       Ev.eDown ∈ (down goodProvider 1 initialState).2.1) := by
  decide

/-- Claim C1, amended: after `verifyInstalled` succeeds, `up`
(resp. `down`) delegates to the provider capability's `up`
(resp. `down`) operation — not to the backend engine, which is never
invoked — and delivers that operation's callback result. -/
theorem up_down_delegate_to_provider (p : Provider) (a : Nat)
    (s : EngineState) (h : (verifyProviderInstalled p s).2.2 = none) :
    (up p a s).2.1 = (verifyProviderInstalled p s).2.1 ++ [Ev.pUp] ∧
    (up p a s).2.2 = p.upResult ∧
    Ev.eUp ∉ (up p a s).2.1 ∧
    (down p a s).2.1 = (verifyProviderInstalled p s).2.1 ++ [Ev.pDown] ∧
    (down p a s).2.2 = p.downResult ∧
    Ev.eDown ∉ (down p a s).2.1 := by
  rcases verifyProviderInstalled_trace p s with ht | ht <;>
    simp [up_gate_ok p a s h, down_gate_ok p a s h, ht]

/-- Claim C1, witness: the amended theorem instantiated at
`goodProvider` from the initial state. -/
theorem up_down_delegate_to_provider_witness :
    (verifyProviderInstalled goodProvider initialState).2.2 = none ∧
    ((up goodProvider 2 initialState).2.1 =
        (verifyProviderInstalled goodProvider initialState).2.1 ++ [Ev.pUp] ∧
      (up goodProvider 2 initialState).2.2 = goodProvider.upResult ∧
      Ev.eUp ∉ (up goodProvider 2 initialState).2.1 ∧
      (down goodProvider 2 initialState).2.1 =
        (verifyProviderInstalled goodProvider initialState).2.1 ++
          [Ev.pDown] ∧
      (down goodProvider 2 initialState).2.2 = goodProvider.downResult ∧
      Ev.eDown ∉ (down goodProvider 2 initialState).2.1) :=
  ⟨rfl, up_down_delegate_to_provider goodProvider 2 initialState rfl⟩

/-- Claim C6: when the installed fact is not yet cached and the
provider's `isInstalled` query answers `(nil, false)`, `up` fails with
an error whose message is exactly `Provider "<name>" is NOT installed!`
(where `<name>` is the provider's `getName`), and no delegated call —
neither provider `up` nor backend `up` — is made. -/
theorem up_not_installed_error (p : Provider) (a : Nat) (s : EngineState)
    (h1 : s.isProviderInstalled = false)
    (h2 : p.isInstalled = (none, false)) :
    (up p a s).2.2 =
      some (Err.mk ("Provider \"" ++ p.getName ++ "\" is NOT installed!")) ∧
    Ev.pUp ∉ (up p a s).2.1 ∧ Ev.eUp ∉ (up p a s).2.1 := by
  have hv : verifyProviderInstalled p s =
      (s, [Ev.pIsInstalled],
       some (makeProviderError p "is NOT installed!")) := by
    unfold verifyProviderInstalled
    rw [h1, h2]
    rfl
  have hu := up_gate_err p a s (makeProviderError p "is NOT installed!")
    (by rw [hv])
  rw [hv] at hu
  simp [hu, makeProviderError_msg, String.append_assoc]

/-- Claim C6, witness: `up` from the initial state against a provider
answering not-installed. -/
theorem up_not_installed_error_witness :
    initialState.isProviderInstalled = false ∧
    notInstalledProvider.isInstalled = (none, false) ∧
    ((up notInstalledProvider 1 initialState).2.2 =
        some (Err.mk ("Provider \"" ++ notInstalledProvider.getName ++
          "\" is NOT installed!")) ∧
      Ev.pUp ∉ (up notInstalledProvider 1 initialState).2.1 ∧
      Ev.eUp ∉ (up notInstalledProvider 1 initialState).2.1) :=
  ⟨rfl, rfl, up_not_installed_error notInstalledProvider 1 initialState rfl rfl⟩

/-- Claim C2: in every execution of `verifyProviderIsReady`, the
provider's `engineConfig` is queried only if the install check and then
the up check both succeeded in that call chain; and if the provider
reports not-installed, neither the `isUp` query nor the `engineConfig`
query is performed and the call fails with the not-installed error. -/
theorem verifyReady_ordering_fail_fast (p : Provider) (s : EngineState) :
    (Ev.pEngineConfig ∈ (verifyProviderIsReady p s).2.1 →
      (verifyProviderInstalled p s).2.2 = none ∧
      (verifyProviderUp p (verifyProviderInstalled p s).1).2.2 = none) ∧
    (s.isProviderInstalled = false → p.isInstalled = (none, false) →
      Ev.pIsUp ∉ (verifyProviderIsReady p s).2.1 ∧
      Ev.pEngineConfig ∉ (verifyProviderIsReady p s).2.1 ∧
      (verifyProviderIsReady p s).2.2 =
        Outcome.ok (some (makeProviderError p "is NOT installed!"))) := by
  constructor
  · intro hmem
    unfold verifyProviderIsReady at hmem
    split at hmem
    next s1 t1 err heq =>
      have : Ev.pEngineConfig ∈ (verifyProviderInstalled p s).2.1 := by
        rw [heq]; exact hmem
      exact absurd (verifyProviderInstalled_trace_events p s _ this)
        (by decide)
    next s1 t1 heq =>
      have hs1 : (verifyProviderInstalled p s).1 = s1 := by rw [heq]
      have herr : (verifyProviderInstalled p s).2.2 = none := by rw [heq]
      have ht1 : (verifyProviderInstalled p s).2.1 = t1 := by rw [heq]
      split at hmem
      next s2 t2 err heq2 =>
        rcases List.mem_append.mp hmem with hm | hm
        · exact absurd (verifyProviderInstalled_trace_events p s _
            (ht1 ▸ hm)) (by decide)
        · have : Ev.pEngineConfig ∈ (verifyProviderUp p s1).2.1 := by
            rw [heq2]; exact hm
          exact absurd (verifyProviderUp_trace_events p s1 _ this)
            (by decide)
      next s2 t2 heq2 =>
        refine ⟨herr, ?_⟩
        rw [hs1, heq2]
  · intro h1 h2
    have hv : verifyProviderInstalled p s =
        (s, [Ev.pIsInstalled],
         some (makeProviderError p "is NOT installed!")) := by
      unfold verifyProviderInstalled
      rw [h1, h2]
      rfl
    unfold verifyProviderIsReady
    rw [hv]
    simp

/-- Claim C2, witness: concrete not-installed provider from the initial
state, and a concrete run reaching `engineConfig`. -/
theorem verifyReady_ordering_fail_fast_witness :
    (Ev.pEngineConfig ∈
        (verifyProviderIsReady goodProvider readyState).2.1 →
      (verifyProviderInstalled goodProvider readyState).2.2 = none ∧
      (verifyProviderUp goodProvider
        (verifyProviderInstalled goodProvider readyState).1).2.2 = none) ∧
    (initialState.isProviderInstalled = false →
      notInstalledProvider.isInstalled = (none, false) →
      Ev.pIsUp ∉
        (verifyProviderIsReady notInstalledProvider initialState).2.1 ∧
      Ev.pEngineConfig ∉
        (verifyProviderIsReady notInstalledProvider initialState).2.1 ∧
      (verifyProviderIsReady notInstalledProvider initialState).2.2 =
        Outcome.ok
          (some (makeProviderError notInstalledProvider
            "is NOT installed!"))) :=
  ⟨(verifyReady_ordering_fail_fast goodProvider readyState).1,
   (verifyReady_ordering_fail_fast notInstalledProvider initialState).2⟩

/-- Claim C10: the `attempts` argument of `up` and `down` is never
read — for any two attempt counts and the same provider behaviour and
state, the two calls make the same external calls, produce the same
state, and deliver the same callback result. -/
theorem up_down_attempts_unused (p : Provider) (s : EngineState)
    (a1 a2 : Nat) :
    up p a1 s = up p a2 s ∧ down p a1 s = down p a2 s :=
  ⟨rfl, rfl⟩

/-- Claim C3: against a provider consistently reporting installed,
`n ≥ 1` calls to `verifyInstalled` perform exactly one provider
`isInstalled` query and every call succeeds; and with a fully
cooperative provider a first `list` succeeds with exactly one
`engineConfig` fetch and one backend `init(cfg)`, while a second `list`
performs zero additional provider queries (its trace is just the
backend `list` call). -/
theorem memoized_checks_single_query (p : Provider) (s : EngineState)
    (b : Backend) (a a2 : Option String) (cfg : Config) (n : Nat)
    (hn : 1 ≤ n)
    (hI : p.isInstalled = (none, true)) (hU : p.isUp = (none, true))
    (hC : p.engineConfig = (none, cfg))
    (hs1 : s.isProviderInstalled = false) (hs2 : s.isProviderUp = false)
    (hs3 : s.engineHasBeenInit = false) (hs4 : s.engine = some b) :
    ((verifyInstalledTimes p s n).2.1.count Ev.pIsInstalled = 1 ∧
     (verifyInstalledTimes p s n).2.2 = List.replicate n none) ∧
    ((list p a s).2.2 = Outcome.ok (b.listB a) ∧
     (list p a s).2.1.count Ev.pEngineConfig = 1 ∧
     (list p a s).2.1.count (Ev.eInit cfg) = 1 ∧
     (list p a2 (list p a s).1).2.1 = [Ev.eList a2] ∧
     (list p a2 (list p a s).1).2.2 = Outcome.ok (b.listB a2)) := by
  constructor
  · cases n with
    | zero => exact absurd hn (by decide)
    | succ k =>
      rw [verifyInstalledTimes_succ]
      simp only [verifyProviderInstalled_first p s hs1 hI]
      simp only [verifyInstalledTimes_cached p k
        ({ s with isProviderInstalled := true }) rfl]
      simp [List.replicate_succ]
  · have hv1 := verifyProviderInstalled_first p s hs1 hI
    have hv2 : verifyProviderUp p ({ s with isProviderInstalled := true }) =
        ({ s with isProviderInstalled := true, isProviderUp := true },
         [Ev.pIsUp], none) := by
      unfold verifyProviderUp
      simp [hs2, hU]
    have hready : verifyProviderIsReady p s =
        ({ s with isProviderInstalled := true, isProviderUp := true, engineHasBeenInit := true },
         [Ev.pIsInstalled, Ev.pIsUp, Ev.pEngineConfig, Ev.eInit cfg],
         Outcome.ok none) := by
      unfold verifyProviderIsReady
      simp only [hv1, hv2]
      simp [hs3, hC, hs4]
    have hlist : list p a s =
        ({ s with isProviderInstalled := true, isProviderUp := true, engineHasBeenInit := true },
         [Ev.pIsInstalled, Ev.pIsUp, Ev.pEngineConfig, Ev.eInit cfg,
          Ev.eList a],
         Outcome.ok (b.listB a)) := by
      unfold list
      simp only [hready]
      simp [hs4]
    have hlist2 : list p a2
        ({ s with isProviderInstalled := true, isProviderUp := true, engineHasBeenInit := true }) =
        ({ s with isProviderInstalled := true, isProviderUp := true, engineHasBeenInit := true },
         [Ev.eList a2], Outcome.ok (b.listB a2)) := by
      unfold list verifyProviderIsReady
      simp only [verifyProviderInstalled_cached p
          ({ s with isProviderInstalled := true, isProviderUp := true, engineHasBeenInit := true }) rfl,
        verifyProviderUp_cached p
          ({ s with isProviderInstalled := true, isProviderUp := true, engineHasBeenInit := true }) rfl]
      simp [hs4]
    have hfst : (list p a s).1 =
        ({ s with isProviderInstalled := true, isProviderUp := true, engineHasBeenInit := true }) := by
      rw [hlist]
    refine ⟨by rw [hlist], by rw [hlist]; simp, by rw [hlist]; simp,
      ?_, ?_⟩
    · rw [hfst, hlist2]
    · rw [hfst, hlist2]

/-- Claim C3, witness: three `verifyInstalled` calls and two `list`
calls against `goodProvider` and `constBackend` from the
freshly-initialised state. -/
theorem memoized_checks_single_query_witness :
    (1 ≤ 3 ∧ goodProvider.isInstalled = (none, true) ∧
      goodProvider.isUp = (none, true) ∧
      goodProvider.engineConfig = (none, 7) ∧
      readyState.isProviderInstalled = false ∧
      readyState.isProviderUp = false ∧
      readyState.engineHasBeenInit = false ∧
      readyState.engine = some constBackend) ∧
    ((verifyInstalledTimes goodProvider readyState 3).2.1.count
        Ev.pIsInstalled = 1 ∧
      (verifyInstalledTimes goodProvider readyState 3).2.2 =
        List.replicate 3 none) ∧
    ((list goodProvider (some "myapp") readyState).2.2 =
        Outcome.ok (constBackend.listB (some "myapp")) ∧
      (list goodProvider (some "myapp") readyState).2.1.count
        Ev.pEngineConfig = 1 ∧
      (list goodProvider (some "myapp") readyState).2.1.count
        (Ev.eInit 7) = 1 ∧
      (list goodProvider none
        (list goodProvider (some "myapp") readyState).1).2.1 =
        [Ev.eList none] ∧
      (list goodProvider none
        (list goodProvider (some "myapp") readyState).1).2.2 =
        Outcome.ok (constBackend.listB none)) :=
  ⟨⟨by decide, rfl, rfl, rfl, rfl, rfl, rfl, rfl⟩,
   memoized_checks_single_query goodProvider readyState constBackend
     (some "myapp") none 7 3 (by decide) rfl rfl rfl rfl rfl rfl rfl⟩

/-- Claim C5: pass-through for every `verifyReady`-gated operation
(`list`, `inspect`, `create`, `start`, `stop`, `remove`, `build`).
When the readiness gate fails with an error, exactly that error is
delivered to the caller and the delegated backend call is never
attempted (the operation's trace is exactly the gate's trace); when the
gate succeeds, the backend call's result — success or error — is
delivered to the caller unmodified. -/
theorem gated_ops_pass_through (p : Provider) (s : EngineState) (e : Err)
    (b : Backend) (a : Option String) (cid : String) (o : Nat)
    (so : Option Nat) (img : Image) :
    ((verifyProviderIsReady p s).2.2 = Outcome.ok (some e) →
      list p a s = ((verifyProviderIsReady p s).1,
        (verifyProviderIsReady p s).2.1, Outcome.ok (some e, none)) ∧
      inspect p cid s = ((verifyProviderIsReady p s).1,
        (verifyProviderIsReady p s).2.1, Outcome.ok (some e, none)) ∧
      create p o s = ((verifyProviderIsReady p s).1,
        (verifyProviderIsReady p s).2.1, Outcome.ok (some e, none)) ∧
      start p cid so s = ((verifyProviderIsReady p s).1,
        (verifyProviderIsReady p s).2.1, Outcome.ok (some e, none)) ∧
      stop p cid s = ((verifyProviderIsReady p s).1,
        (verifyProviderIsReady p s).2.1, Outcome.ok (some e, none)) ∧
      remove p cid s = ((verifyProviderIsReady p s).1,
        (verifyProviderIsReady p s).2.1, Outcome.ok (some e, none)) ∧
      build p img s = ((verifyProviderIsReady p s).1,
        (verifyProviderIsReady p s).2.1, Outcome.ok (some e, none))) ∧
    ((verifyProviderIsReady p s).2.2 = Outcome.ok none →
      s.engine = some b →
      list p a s = ((verifyProviderIsReady p s).1,
        (verifyProviderIsReady p s).2.1 ++ [Ev.eList a],
        Outcome.ok (b.listB a)) ∧
      inspect p cid s = ((verifyProviderIsReady p s).1,
        (verifyProviderIsReady p s).2.1 ++ [Ev.eGet cid, Ev.eInspect (b.getB cid)],
        Outcome.ok (b.inspectB (b.getB cid))) ∧
      create p o s = ((verifyProviderIsReady p s).1,
        (verifyProviderIsReady p s).2.1 ++ [Ev.eCreate o],
        Outcome.ok (b.createB o)) ∧
      start p cid so s = ((verifyProviderIsReady p s).1,
        (verifyProviderIsReady p s).2.1 ++ [Ev.eStart cid so],
        Outcome.ok (b.startB cid so)) ∧
      stop p cid s = ((verifyProviderIsReady p s).1,
        (verifyProviderIsReady p s).2.1 ++ [Ev.eStop cid],
        Outcome.ok (b.stopB cid)) ∧
      remove p cid s = ((verifyProviderIsReady p s).1,
        (verifyProviderIsReady p s).2.1 ++ [Ev.eRemove cid],
        Outcome.ok (b.removeB cid)) ∧
      build p img s = ((verifyProviderIsReady p s).1,
        (verifyProviderIsReady p s).2.1 ++ [if img.build then Ev.eBuild img else Ev.ePull img],
        Outcome.ok (if img.build then b.buildB img else b.pullB img))) :=
  ⟨fun h => ⟨list_gate_err p a s e h, inspect_gate_err p cid s e h,
    create_gate_err p o s e h, start_gate_err p cid so s e h,
    stop_gate_err p cid s e h, remove_gate_err p cid s e h,
    build_gate_err p img s e h⟩,
   fun h hE => ⟨list_gate_ok p a s b h hE, inspect_gate_ok p cid s b h hE,
    create_gate_ok p o s b h hE, start_gate_ok p cid so s b h hE,
    stop_gate_ok p cid s b h hE, remove_gate_ok p cid s b h hE,
    build_gate_ok p img s b h hE⟩⟩

/-- Claim C5, witness: the failure half at a not-installed provider and
the success half at `goodProvider` with `constBackend`. -/
theorem gated_ops_pass_through_witness :
    ((verifyProviderIsReady notInstalledProvider initialState).2.2 =
      Outcome.ok
        (some (makeProviderError notInstalledProvider
          "is NOT installed!"))) ∧
    (create notInstalledProvider 9 initialState =
      ((verifyProviderIsReady notInstalledProvider initialState).1,
       (verifyProviderIsReady notInstalledProvider initialState).2.1,
       Outcome.ok
         (some (makeProviderError notInstalledProvider
           "is NOT installed!"), none))) ∧
    ((verifyProviderIsReady goodProvider readyState).2.2 =
      Outcome.ok none) ∧
    (readyState.engine = some constBackend) ∧
    (create goodProvider 9 readyState =
      ((verifyProviderIsReady goodProvider readyState).1,
       (verifyProviderIsReady goodProvider readyState).2.1 ++
         [Ev.eCreate 9],
       Outcome.ok (constBackend.createB 9))) :=
  ⟨rfl,
   (((gated_ops_pass_through notInstalledProvider initialState
      (makeProviderError notInstalledProvider "is NOT installed!")
      constBackend (some "web") "c1" 9 none ⟨true, 0⟩).1 rfl)).2.2.1,
   rfl, rfl,
   (((gated_ops_pass_through goodProvider readyState (Err.mk "")
      constBackend (some "web") "c1" 9 none ⟨true, 0⟩).2 rfl rfl)).2.2.1⟩

/-- Claim C7: after the readiness gate succeeds, `build` invokes the
backend's `build` operation on the image descriptor when the
descriptor's `build` marker is set, else the backend's `pull`; the
branch is decided purely by that marker field. -/
theorem build_branch_correct (p : Provider) (s : EngineState)
    (b : Backend) (img : Image)
    (h : (verifyProviderIsReady p s).2.2 = Outcome.ok none)
    (hE : s.engine = some b) :
    (img.build = true →
      (build p img s).2.1 =
        (verifyProviderIsReady p s).2.1 ++ [Ev.eBuild img] ∧
      (build p img s).2.2 = Outcome.ok (b.buildB img)) ∧
    (img.build = false →
      (build p img s).2.1 =
        (verifyProviderIsReady p s).2.1 ++ [Ev.ePull img] ∧
      (build p img s).2.2 = Outcome.ok (b.pullB img)) := by
  have hb := build_gate_ok p img s b h hE
  constructor
  · intro hm
    rw [hb]
    simp [hm]
  · intro hm
    rw [hb]
    simp [hm]

/-- Claim C7, witness: a build-marked image takes the backend `build`
path and an unmarked image takes the `pull` path, at `goodProvider`
with `constBackend`. -/
theorem build_branch_correct_witness :
    ((verifyProviderIsReady goodProvider readyState).2.2 =
        Outcome.ok none ∧
      readyState.engine = some constBackend) ∧
    ((Image.mk true 3).build = true →
      (build goodProvider (Image.mk true 3) readyState).2.1 =
        (verifyProviderIsReady goodProvider readyState).2.1 ++
          [Ev.eBuild (Image.mk true 3)] ∧
      (build goodProvider (Image.mk true 3) readyState).2.2 =
        Outcome.ok (constBackend.buildB (Image.mk true 3))) ∧
    ((Image.mk false 4).build = false →
      (build goodProvider (Image.mk false 4) readyState).2.1 =
        (verifyProviderIsReady goodProvider readyState).2.1 ++
          [Ev.ePull (Image.mk false 4)] ∧
      (build goodProvider (Image.mk false 4) readyState).2.2 =
        Outcome.ok (constBackend.pullB (Image.mk false 4))) :=
  ⟨⟨rfl, rfl⟩,
   (build_branch_correct goodProvider readyState constBackend
     (Image.mk true 3) rfl rfl).1,
   (build_branch_correct goodProvider readyState constBackend
     (Image.mk false 4) rfl rfl).2⟩

/-- Claim C8: when a provider query itself errors, the verification
functions forward that error to the caller unmodified and cache no
failure: an erroring `isInstalled` or `isUp` leaves the state exactly as
it was (so a later call re-queries freshly), and an erroring
`engineConfig` inside `verifyReady` leaves `engineHasBeenInit` false and
the backend handle untouched while still having performed the config
query. -/
theorem query_error_atomic (p : Provider) (s : EngineState) (e : Err) :
    (s.isProviderInstalled = false → p.isInstalled.1 = some e →
      verifyProviderInstalled p s = (s, [Ev.pIsInstalled], some e)) ∧
    (s.isProviderUp = false → p.isUp.1 = some e →
      verifyProviderUp p s = (s, [Ev.pIsUp], some e)) ∧
    (s.engineHasBeenInit = false → p.engineConfig.1 = some e →
      (verifyProviderInstalled p s).2.2 = none →
      (verifyProviderUp p (verifyProviderInstalled p s).1).2.2 = none →
      (verifyProviderIsReady p s).2.2 = Outcome.ok (some e) ∧
      (verifyProviderIsReady p s).1.engineHasBeenInit = false ∧
      (verifyProviderIsReady p s).1.engine = s.engine ∧
      Ev.pEngineConfig ∈ (verifyProviderIsReady p s).2.1) := by
  refine ⟨?_, ?_, ?_⟩
  · intro h1 h2
    unfold verifyProviderInstalled
    rcases hpi : p.isInstalled with ⟨pe, pb⟩
    rw [hpi] at h2
    simp at h2
    subst h2
    rw [h1]
    rfl
  · intro h1 h2
    unfold verifyProviderUp
    rcases hpu : p.isUp with ⟨pe, pb⟩
    rw [hpu] at h2
    simp at h2
    subst h2
    rw [h1]
    rfl
  · intro h0 hc hvi hvu
    rcases hcc : p.engineConfig with ⟨ce, cc⟩
    rw [hcc] at hc
    simp at hc
    subst hc
    rcases vpi_ok_cases p s hvi with hv | hv
    · rcases vpu_ok_cases p s (by rw [hv] at hvu; exact hvu) with hu | hu
      · unfold verifyProviderIsReady
        simp only [hv, hu]
        simp [h0, hcc]
      · unfold verifyProviderIsReady
        simp only [hv, hu]
        simp [h0, hcc]
    · rcases vpu_ok_cases p ({ s with isProviderInstalled := true })
        (by rw [hv] at hvu; exact hvu) with hu | hu
      · unfold verifyProviderIsReady
        simp only [hv, hu]
        simp [h0, hcc]
      · unfold verifyProviderIsReady
        simp only [hv, hu]
        simp [h0, hcc]

/-- Claim C8, witness: an erroring `isInstalled`, an erroring `isUp`,
and an erroring `engineConfig`, each forwarded verbatim with no fact
cached. -/
theorem query_error_atomic_witness :
    (initialState.isProviderInstalled = false ∧
      errInstalledProvider.isInstalled.1 = some (Err.mk "boom") ∧
      verifyProviderInstalled errInstalledProvider initialState =
        (initialState, [Ev.pIsInstalled], some (Err.mk "boom"))) ∧
    (initialState.isProviderUp = false ∧
      errUpProvider.isUp.1 = some (Err.mk "net down") ∧
      verifyProviderUp errUpProvider initialState =
        (initialState, [Ev.pIsUp], some (Err.mk "net down"))) ∧
    (readyState.engineHasBeenInit = false ∧
      errConfigProvider.engineConfig.1 = some (Err.mk "cfg fail") ∧
      ((verifyProviderIsReady errConfigProvider readyState).2.2 =
          Outcome.ok (some (Err.mk "cfg fail")) ∧
        (verifyProviderIsReady errConfigProvider
          readyState).1.engineHasBeenInit = false ∧
        (verifyProviderIsReady errConfigProvider readyState).1.engine =
          readyState.engine ∧
        Ev.pEngineConfig ∈
          (verifyProviderIsReady errConfigProvider readyState).2.1)) :=
  ⟨⟨rfl, rfl,
    (query_error_atomic errInstalledProvider initialState
      (Err.mk "boom")).1 rfl rfl⟩,
   ⟨rfl, rfl,
    (query_error_atomic errUpProvider initialState
      (Err.mk "net down")).2.1 rfl rfl⟩,
   ⟨rfl, rfl,
    (query_error_atomic errConfigProvider readyState
      (Err.mk "cfg fail")).2.2 rfl rfl rfl rfl⟩⟩

/-- Claim C9: if `exports.init` was never called the backend handle is
still null, and a readiness verification that passes the installed and
up checks with `engineHasBeenInit` false and a successful config fetch
dereferences the null handle at the `engine.init(config)` step — a
crash, not a callback error — as does every gated operation; if an
earlier `init` set the handle, that step never crashes. -/
theorem null_backend_crash (p : Provider) (s : EngineState) (b : Backend)
    (a : Option String) (cid : String) (o : Nat) (so : Option Nat)
    (img : Image) :
    (s.engine = none → s.engineHasBeenInit = false →
      (verifyProviderInstalled p s).2.2 = none →
      (verifyProviderUp p (verifyProviderInstalled p s).1).2.2 = none →
      p.engineConfig.1 = none →
      (verifyProviderIsReady p s).2.2 = Outcome.crash ∧
      (list p a s).2.2 = Outcome.crash ∧
      (inspect p cid s).2.2 = Outcome.crash ∧
      (create p o s).2.2 = Outcome.crash ∧
      (start p cid so s).2.2 = Outcome.crash ∧
      (stop p cid s).2.2 = Outcome.crash ∧
      (remove p cid s).2.2 = Outcome.crash ∧
      (build p img s).2.2 = Outcome.crash) ∧
    (s.engine = some b →
      (verifyProviderIsReady p s).2.2 ≠ Outcome.crash ∧
      (list p a s).2.2 ≠ Outcome.crash ∧
      (inspect p cid s).2.2 ≠ Outcome.crash ∧
      (create p o s).2.2 ≠ Outcome.crash ∧
      (start p cid so s).2.2 ≠ Outcome.crash ∧
      (stop p cid s).2.2 ≠ Outcome.crash ∧
      (remove p cid s).2.2 ≠ Outcome.crash ∧
      (build p img s).2.2 ≠ Outcome.crash) := by
  constructor
  · intro h0 h1 hvi hvu hcfg
    have hr : (verifyProviderIsReady p s).2.2 = Outcome.crash := by
      rcases hcc : p.engineConfig with ⟨ce, cc⟩
      rw [hcc] at hcfg
      simp at hcfg
      subst hcfg
      rcases vpi_ok_cases p s hvi with hv | hv
      · rcases vpu_ok_cases p s (by rw [hv] at hvu; exact hvu)
          with hu | hu <;>
        · unfold verifyProviderIsReady
          simp only [hv, hu]
          simp [h1, hcc, h0]
      · rcases vpu_ok_cases p ({ s with isProviderInstalled := true })
          (by rw [hv] at hvu; exact hvu) with hu | hu <;>
        · unfold verifyProviderIsReady
          simp only [hv, hu]
          simp [h1, hcc, h0]
    exact ⟨hr,
     by rw [list_gate_crash p a s hr],
     by rw [inspect_gate_crash p cid s hr],
     by rw [create_gate_crash p o s hr],
     by rw [start_gate_crash p cid so s hr],
     by rw [stop_gate_crash p cid s hr],
     by rw [remove_gate_crash p cid s hr],
     by rw [build_gate_crash p img s hr]⟩
  · intro hE
    have hnc := ready_no_crash p s b hE
    have hlist : (list p a s).2.2 ≠ Outcome.crash := by
      cases hout : (verifyProviderIsReady p s).2.2 with
      | ok r =>
        cases r with
        | some e =>
          rw [list_gate_err p a s e hout]
          simp
        | none =>
          rw [list_gate_ok p a s b hout hE]
          simp
      | crash => exact absurd hout hnc
    have hinspect : (inspect p cid s).2.2 ≠ Outcome.crash := by
      cases hout : (verifyProviderIsReady p s).2.2 with
      | ok r =>
        cases r with
        | some e =>
          rw [inspect_gate_err p cid s e hout]
          simp
        | none =>
          rw [inspect_gate_ok p cid s b hout hE]
          simp
      | crash => exact absurd hout hnc
    have hcreate : (create p o s).2.2 ≠ Outcome.crash := by
      cases hout : (verifyProviderIsReady p s).2.2 with
      | ok r =>
        cases r with
        | some e =>
          rw [create_gate_err p o s e hout]
          simp
        | none =>
          rw [create_gate_ok p o s b hout hE]
          simp
      | crash => exact absurd hout hnc
    have hstart : (start p cid so s).2.2 ≠ Outcome.crash := by
      cases hout : (verifyProviderIsReady p s).2.2 with
      | ok r =>
        cases r with
        | some e =>
          rw [start_gate_err p cid so s e hout]
          simp
        | none =>
          rw [start_gate_ok p cid so s b hout hE]
          simp
      | crash => exact absurd hout hnc
    have hstop : (stop p cid s).2.2 ≠ Outcome.crash := by
      cases hout : (verifyProviderIsReady p s).2.2 with
      | ok r =>
        cases r with
        | some e =>
          rw [stop_gate_err p cid s e hout]
          simp
        | none =>
          rw [stop_gate_ok p cid s b hout hE]
          simp
      | crash => exact absurd hout hnc
    have hremove : (remove p cid s).2.2 ≠ Outcome.crash := by
      cases hout : (verifyProviderIsReady p s).2.2 with
      | ok r =>
        cases r with
        | some e =>
          rw [remove_gate_err p cid s e hout]
          simp
        | none =>
          rw [remove_gate_ok p cid s b hout hE]
          simp
      | crash => exact absurd hout hnc
    have hbuild : (build p img s).2.2 ≠ Outcome.crash := by
      cases hout : (verifyProviderIsReady p s).2.2 with
      | ok r =>
        cases r with
        | some e =>
          rw [build_gate_err p img s e hout]
          simp
        | none =>
          rw [build_gate_ok p img s b hout hE]
          simp
      | crash => exact absurd hout hnc
    exact ⟨hnc, hlist, hinspect, hcreate, hstart, hstop, hremove, hbuild⟩

/-- Claim C9, witness: from the pristine initial state (no `init`
call) every gated operation crashes at the `engine.init` step, while
after `init` resolved `constBackend` nothing crashes. -/
theorem null_backend_crash_witness :
    (initialState.engine = none ∧
      initialState.engineHasBeenInit = false ∧
      (verifyProviderInstalled goodProvider initialState).2.2 = none ∧
      (verifyProviderUp goodProvider
        (verifyProviderInstalled goodProvider initialState).1).2.2 =
        none ∧
      goodProvider.engineConfig.1 = none ∧
      ((verifyProviderIsReady goodProvider initialState).2.2 =
          Outcome.crash ∧
        (list goodProvider (some "web") initialState).2.2 =
          Outcome.crash)) ∧
    (readyState.engine = some constBackend ∧
      ((verifyProviderIsReady goodProvider readyState).2.2 ≠
          Outcome.crash ∧
        (list goodProvider (some "web") readyState).2.2 ≠
          Outcome.crash)) :=
  ⟨⟨rfl, rfl, rfl, rfl, rfl,
    ⟨((null_backend_crash goodProvider initialState constBackend
        (some "web") "c1" 9 none ⟨true, 0⟩).1 rfl rfl rfl rfl rfl).1,
     ((null_backend_crash goodProvider initialState constBackend
        (some "web") "c1" 9 none ⟨true, 0⟩).1 rfl rfl rfl rfl rfl).2.1⟩⟩,
   ⟨rfl,
    ⟨((null_backend_crash goodProvider readyState constBackend
        (some "web") "c1" 9 none ⟨true, 0⟩).2 rfl).1,
     ((null_backend_crash goodProvider readyState constBackend
        (some "web") "c1" 9 none ⟨true, 0⟩).2 rfl).2.1⟩⟩⟩

/-- Claim C4: the three readiness facts only transition from false to
true — every public operation is monotone on them, so no sequence of
calls can observe a fact revert — and in every state reachable from the
initial state by public operations (under arbitrary provider
behaviours), `up` implies `installed` and `initialized` implies `up`. -/
theorem readiness_facts_invariant :
    (∀ l : List (Provider × Op), Inv (runOps l initialState)) ∧
    (∀ (p : Provider) (s : EngineState) (o : Op),
      Mono s (step p s o)) :=
  ⟨fun l => runOps_inv l initialState Inv_initialState,
   fun p s o => step_mono p s o⟩

end KboxEngine
